import Mathlib

/-!
Verification of the edicast internet-radio relay core against its
natural-language specification.

The development shallowly embeds the relevant parts of the Rust sources:

- src/audio.rs        : PcmData and the silence generator
- src/source.rs       : the run_source batching loop
- src/sync.rs         : the rendezvous admission channel
- src/fanout.rs       : the live broadcast channel publish pass
- src/stream.rs       : the stream worker loop
- src/server/control.rs : the control endpoint dispatch
- src/server/public.rs  : the public endpoint dispatch and stream body
- src/audio/encode.rs : the MP3 encoder deinterleaving loop

Machine integers (usize) are modelled as Nat; i16 samples as Int (only
lengths and zero-ness matter to the claims). Code that can panic is
modelled with Option, where none stands for the panic.
-/

namespace Edicast

/-! ## Data model: PcmData (src/audio.rs) -/

/-- Embeds struct PcmData of src/audio.rs: interleaved 16-bit samples with a
sample rate and a channel count. Sample values are modelled as Int. -/
structure PcmData where
  sample_rate : Nat
  channels : Nat
  samples : List Int
deriving Repr, DecidableEq

/-- Embeds PcmData::silence of src/audio.rs. The duration is given in
nanoseconds, matching duration.as_nanos() in the source; the sample count is
duration_ns * 44100 / 1e9 per channel, times 2 channels, all samples zero. -/
def PcmData.silence (duration_ns : Nat) : PcmData :=
  let sample_rate := 44100
  let channels := 2
  let channel_sample_count := duration_ns * sample_rate / 1000000000
  let sample_count := channel_sample_count * channels
  { sample_rate := sample_rate
    channels := channels
    samples := List.replicate sample_count 0 }

/-! ## Source worker batching (src/source.rs, run_source) -/

/-- Embeds the inner while loop of run_source in src/source.rs:
while buffer.len() is strictly greater than buffer_samples, drain the first
buffer_samples samples off the front as one batch. In the source a zero
buffer_samples with a non-empty buffer would loop forever, which is modelled
as none. -/
def drainBatches (buffer_samples : Nat) (buffer : List Int) :
    Option (List (List Int) × List Int) :=
  if buffer_samples < buffer.length then
    if buffer_samples = 0 then none
    else
      match drainBatches buffer_samples (buffer.drop buffer_samples) with
      | some (batches, rest) => some (buffer.take buffer_samples :: batches, rest)
      | none => none
  else
    some ([], buffer)
termination_by buffer.length
decreasing_by
  simp only [List.length_drop]
  omega

/-- Embeds one Ok(pcm) iteration of run_source in src/source.rs: append the
decoded samples to the working buffer, compute
buffer_samples = buffer_ms * pcm.sample_rate / 1000, and detach batches while
the buffer holds strictly more than buffer_samples samples. Each published
batch carries the channels and sample_rate of the decoded frame. Returns the
published frames in order together with the residual buffer. -/
def run_source_step (buffer_ms : Nat) (buffer : List Int) (pcm : PcmData) :
    Option (List PcmData × List Int) :=
  let buffer2 := buffer ++ pcm.samples
  let buffer_samples := buffer_ms * pcm.sample_rate / 1000
  match drainBatches buffer_samples buffer2 with
  | some (batches, rest) =>
      some (batches.map (fun b =>
        { channels := pcm.channels
          sample_rate := pcm.sample_rate
          samples := b }), rest)
  | none => none

example : PcmData.silence 1000000000 =
    { sample_rate := 44100, channels := 2, samples := List.replicate 88200 0 } := rfl

example : run_source_step 1 [] ⟨1000, 2, [0, 0, 0]⟩ =
    some ([⟨1000, 2, [0]⟩, ⟨1000, 2, [0]⟩], [0]) := by
  simp [run_source_step, drainBatches]

lemma drainBatches_isSome (bs : Nat) (hbs : 0 < bs) (buffer : List Int) :
    (drainBatches bs buffer).isSome := by
  induction buffer using drainBatches.induct bs with
  | case1 x hlt hz =>
    omega
  | case2 x hlt hz batches rest heq ih =>
    rw [drainBatches]
    simp [hlt, hz, heq]
  | case3 x hlt hz heq ih =>
    rw [heq] at ih
    simp at ih
  | case4 x hge =>
    rw [drainBatches]
    simp [hge]

lemma drainBatches_spec (bs : Nat) (buffer : List Int) (batches : List (List Int))
    (rest : List Int) (h : drainBatches bs buffer = some (batches, rest)) :
    (∀ b ∈ batches, b.length = bs) ∧ rest.length ≤ bs ∧
      batches.flatten ++ rest = buffer := by
  induction buffer using drainBatches.induct bs generalizing batches rest with
  | case1 x hlt hz =>
    subst hz
    rw [drainBatches] at h
    simp [hlt] at h
  | case2 x hlt hz batches0 rest0 heq ih =>
    rw [drainBatches] at h
    simp [hlt, hz, heq] at h
    obtain ⟨hb, hr⟩ := h
    obtain ⟨ih1, ih2, ih3⟩ := ih batches0 rest0 heq
    subst hb hr
    refine ⟨?_, ih2, ?_⟩
    · intro b hb
      rcases List.mem_cons.mp hb with h1 | h1
      · subst h1
        simp
        omega
      · exact ih1 b h1
    · simp [List.flatten, ih3]
  | case3 x hlt hz heq ih =>
    rw [drainBatches] at h
    simp [hlt, hz, heq] at h
  | case4 x hge =>
    rw [drainBatches] at h
    simp [hge] at h
    obtain ⟨hb, hr⟩ := h
    subst hb hr
    simp
    omega

lemma map_samples_mk (sr ch : Nat) (l : List (List Int)) :
    (l.map (fun b => (⟨sr, ch, b⟩ : PcmData))).map PcmData.samples = l := by
  induction l with
  | nil => rfl
  | cons a t ih => simpa using ih

/-- CLAIM C2 (amended). In run_source, for every decoded frame the samples are
appended to the working buffer; with buffer_samples = buffer_ms ×
frame.sample_rate / 1000 positive, while the buffer holds strictly more than
buffer_samples interleaved samples in total (not per-channel × channels), a
batch of exactly buffer_samples samples is detached off the front and
published, preserving the frame sample_rate and channels; the residue of at
most buffer_samples samples stays in the buffer, and detached batches plus
residue reassemble the appended buffer in order. -/
theorem c2_run_source_batching (buffer_ms : Nat) (buffer : List Int) (pcm : PcmData)
    (hbs : 0 < buffer_ms * pcm.sample_rate / 1000) :
    ∃ published rest,
      run_source_step buffer_ms buffer pcm = some (published, rest) ∧
      (∀ d ∈ published, d.samples.length = buffer_ms * pcm.sample_rate / 1000 ∧
        d.sample_rate = pcm.sample_rate ∧ d.channels = pcm.channels) ∧
      rest.length ≤ buffer_ms * pcm.sample_rate / 1000 ∧
      (published.map PcmData.samples).flatten ++ rest = buffer ++ pcm.samples := by
  have hsome := drainBatches_isSome (buffer_ms * pcm.sample_rate / 1000) hbs
    (buffer ++ pcm.samples)
  rw [Option.isSome_iff_exists] at hsome
  obtain ⟨⟨batches, rest⟩, heq⟩ := hsome
  obtain ⟨h1, h2, h3⟩ := drainBatches_spec _ _ _ _ heq
  refine ⟨batches.map (fun b => ⟨pcm.sample_rate, pcm.channels, b⟩), rest, ?_, ?_, h2, ?_⟩
  · rw [run_source_step]
    simp [heq]
  · intro d hd
    simp at hd
    obtain ⟨b, hb, hd⟩ := hd
    subst hd
    exact ⟨h1 b hb, rfl, rfl⟩
  · rw [map_samples_mk, h3]

/-- Witness for c2_run_source_batching at buffer_ms 1, an empty working buffer
and a 3-sample stereo frame at 1000 Hz. -/
theorem c2_run_source_batching_witness :
    0 < 1 * (1000 : Nat) / 1000 ∧
    ∃ published rest,
      run_source_step 1 [] ⟨1000, 2, [0, 0, 0]⟩ = some (published, rest) ∧
      (∀ d ∈ published, d.samples.length = 1 * 1000 / 1000 ∧
        d.sample_rate = 1000 ∧ d.channels = 2) ∧
      rest.length ≤ 1 * 1000 / 1000 ∧
      (published.map PcmData.samples).flatten ++ rest = [] ++ [0, 0, 0] :=
  ⟨by decide, c2_run_source_batching 1 [] ⟨1000, 2, [0, 0, 0]⟩ (by decide)⟩

/-- CLAIM C2 counterexample. With buffer_ms 1 and a stereo frame of 3 samples
at 1000 Hz, the code detaches batches of buffer_samples = 1 sample, not of
buffer_samples × channels = 2 samples as the claim states. -/
theorem c2_counterexample :
    run_source_step 1 [] ⟨1000, 2, [0, 0, 0]⟩ =
      some ([⟨1000, 2, [0]⟩, ⟨1000, 2, [0]⟩], [0]) ∧
    ¬ (∀ d ∈ [(⟨1000, 2, [0]⟩ : PcmData), ⟨1000, 2, [0]⟩],
        d.samples.length = 1 * 1000 / 1000 * 2) := by
  refine ⟨?_, ?_⟩
  · simp [run_source_step, drainBatches]
  · decide

/-- CLAIM C6 (amended). Every silence frame satisfies all three invariants:
samples.len() is a multiple of channels, sample_rate is positive and there is
at least one channel. A batch published by run_source preserves the decoded
frame sample_rate and channels and holds exactly buffer_ms × sample_rate /
1000 samples, so it satisfies samples.len() % channels == 0 exactly when
channels divides that batch size, which the code does not guarantee. -/
theorem c6_frame_invariants :
    (∀ d : Nat,
      (PcmData.silence d).samples.length % (PcmData.silence d).channels = 0 ∧
      0 < (PcmData.silence d).sample_rate ∧ 1 ≤ (PcmData.silence d).channels) ∧
    (∀ buffer_ms buffer pcm published rest,
      run_source_step buffer_ms buffer pcm = some (published, rest) →
      ∀ f ∈ published, f.sample_rate = pcm.sample_rate ∧ f.channels = pcm.channels ∧
        f.samples.length = buffer_ms * pcm.sample_rate / 1000 ∧
        (pcm.channels ∣ buffer_ms * pcm.sample_rate / 1000 →
          f.samples.length % f.channels = 0)) := by
  constructor
  · intro d
    refine ⟨?_, ?_, ?_⟩ <;> simp [PcmData.silence]
  · intro buffer_ms buffer pcm published rest h f hf
    rw [run_source_step] at h
    rcases heq : drainBatches (buffer_ms * pcm.sample_rate / 1000)
        (buffer ++ pcm.samples) with _ | ⟨batches, rest0⟩ <;> simp [heq] at h
    obtain ⟨hp, hr⟩ := h
    subst hp
    obtain ⟨h1, _, _⟩ := drainBatches_spec _ _ _ _ heq
    simp at hf
    obtain ⟨b, hb, hfb⟩ := hf
    subst hfb
    refine ⟨rfl, rfl, h1 b hb, ?_⟩
    intro hdvd
    simp [h1 b hb]
    exact (Nat.mod_eq_zero_of_dvd hdvd)

/-- Witness for c6_frame_invariants: the silence part at one second, and the
run_source part at a concrete batching step whose batch size 2 is divisible by
the 2 channels. -/
theorem c6_frame_invariants_witness :
    ((PcmData.silence 1000000000).samples.length %
        (PcmData.silence 1000000000).channels = 0 ∧
      0 < (PcmData.silence 1000000000).sample_rate ∧
      1 ≤ (PcmData.silence 1000000000).channels) ∧
    ((⟨1000, 2, [0, 0]⟩ : PcmData).sample_rate = 1000 ∧
      (⟨1000, 2, [0, 0]⟩ : PcmData).channels = 2 ∧
      (⟨1000, 2, [0, 0]⟩ : PcmData).samples.length = 2 * 1000 / 1000 ∧
      ((2 : Nat) ∣ 2 * 1000 / 1000 →
        (⟨1000, 2, [0, 0]⟩ : PcmData).samples.length %
          (⟨1000, 2, [0, 0]⟩ : PcmData).channels = 0)) := by
  refine ⟨c6_frame_invariants.1 1000000000, ?_⟩
  refine c6_frame_invariants.2 2 [] ⟨1000, 2, [0, 0, 0, 0, 0]⟩
    [⟨1000, 2, [0, 0]⟩, ⟨1000, 2, [0, 0]⟩] [0] ?_ ⟨1000, 2, [0, 0]⟩ (by simp)
  simp [run_source_step, drainBatches]

/-- CLAIM C6 counterexample. With buffer_ms 1 and a stereo frame at 1000 Hz,
run_source publishes a batch of 1 sample with channels = 2, violating
samples.len() % channels == 0. -/
theorem c6_counterexample :
    run_source_step 1 [] ⟨1000, 2, [0, 0, 0]⟩ =
      some ([⟨1000, 2, [0]⟩, ⟨1000, 2, [0]⟩], [0]) ∧
    ¬ ((⟨1000, 2, [0]⟩ : PcmData).samples.length %
        (⟨1000, 2, [0]⟩ : PcmData).channels = 0) := by
  refine ⟨?_, by decide⟩
  simp [run_source_step, drainBatches]

/-! ## Rendezvous admission channel (src/sync.rs) -/

/-- Embeds enum SendError of src/sync.rs, together with the Ok case, as the
observable result of RendezvousSender::send. -/
inductive SendResult
  | ok
  | busy
  | disconnected
deriving Repr, DecidableEq

/-- Embeds enum RecvTimeoutError of src/sync.rs. -/
inductive RecvTimeoutError
  | timeout
  | disconnected
deriving Repr, DecidableEq

/-- Models what the blocking mpsc recv_timeout call of src/sync.rs would
observe on the underlying sync_channel(0): a sender waiting with a value, no
sender within the timeout, or all senders dropped. -/
inductive HandoffState (T : Type)
  | senderWaiting (v : T)
  | noSender
  | sendersDropped
deriving Repr, DecidableEq

/-- Embeds RendezvousReceiver::recv_deadline of src/sync.rs. Instants are
modelled as Nat. The source reads: if now <= deadline, return Timeout at once;
otherwise call recv_timeout(deadline - now). The Instant subtraction in the
second branch saturates to a zero duration since now is past the deadline, so
recv_timeout degenerates to a poll of the handoff state. -/
def recv_deadline {T : Type} (now deadline : Nat) (handoff : HandoffState T) :
    Except RecvTimeoutError T :=
  if now ≤ deadline then
    .error .timeout
  else
    match handoff with
    | .senderWaiting v => .ok v
    | .noSender => .error .timeout
    | .sendersDropped => .error .disconnected

/-- CLAIM C1, evaluated at the failing input: at now 0 with deadline 5 in the
future and a sender already waiting with value 42, recv_deadline returns
Timeout immediately instead of blocking for the handoff, because the guard
`now <= deadline` is inverted; in fact it returns Timeout for every call made
before its deadline, so the silence loop of source_thread_main publishes a
frame on every iteration instead of one per elapsed buffer_ms. -/
theorem c1_recv_deadline_failing :
    recv_deadline 0 5 (HandoffState.senderWaiting (42 : Nat)) =
      .error .timeout ∧
    (∀ now deadline : Nat, ∀ v : Nat, now ≤ deadline →
      recv_deadline now deadline (HandoffState.senderWaiting v) =
        .error .timeout) := by
  refine ⟨rfl, ?_⟩
  intro now deadline v h
  simp [recv_deadline, h]

/-- State of one rendezvous channel of src/sync.rs, as observable through the
atomic ready flag and the 0-capacity sync_channel: whether the ready flag is
set, whether a sender that passed the flag is blocked in the handoff, whether
a RendezvousHandle returned by recv is alive, and whether the receiver end
still exists. -/
structure RvState where
  ready : Bool
  pending : Bool
  handleAlive : Bool
  receiverAlive : Bool
deriving Repr, DecidableEq

/-- Outcome of RendezvousSender::send of src/sync.rs: the returned result, the
state left behind, and whether the synchronous handoff was attempted (the
self.send.send(value) call). -/
structure SendOutcome where
  result : SendResult
  state : RvState
  attempted : Bool
deriving Repr, DecidableEq

/-- Embeds RendezvousSender::send of src/sync.rs. The swap on the atomic
ready flag returns its previous value and stores false: if it was false the
call returns Busy without touching the channel; otherwise the handoff is
attempted, and if the receiver end is gone the flag is restored to true and
Disconnected is returned; on success the sender blocks with the value until a
matching recv, modelled by setting pending. -/
def rendezvous_send (s : RvState) : SendOutcome :=
  if s.ready = false then
    { result := .busy, state := s, attempted := false }
  else if s.receiverAlive = false then
    { result := .disconnected, state := { s with ready := true }, attempted := true }
  else
    { result := .ok, state := { s with ready := false, pending := true },
      attempted := true }

/-- Embeds impl Drop for RendezvousHandle of src/sync.rs: dropping the handle
stores true into the ready flag. -/
def dropHandle (s : RvState) : RvState :=
  { s with handleAlive := false, ready := true }

/-- The state of a fresh channel from rendezvous() of src/sync.rs: ready is
initialised to true, nothing pending, no handle, receiver alive. -/
def rvInit : RvState :=
  { ready := true, pending := false, handleAlive := false, receiverAlive := true }

/-- One observable step of a rendezvous channel of src/sync.rs: the three
branches of send, the receiver completing a recv (which packages the value in
a RendezvousHandle; the single receiver thread cannot be inside recv while it
holds a handle), a handle being dropped, a blocked sender failing when the
receiver goes away, and the receiver being dropped (impossible while a handle
borrows it). -/
inductive RvStep : RvState → RvState → Prop
  | sendBusy (s : RvState) : s.ready = false → RvStep s s
  | sendOk (s : RvState) : s.ready = true → s.receiverAlive = true →
      RvStep s { s with ready := false, pending := true }
  | sendDisconnected (s : RvState) : s.ready = true → s.receiverAlive = false →
      RvStep s s
  | recvHandle (s : RvState) : s.pending = true → s.handleAlive = false →
      s.receiverAlive = true →
      RvStep s { s with pending := false, handleAlive := true }
  | dropsHandle (s : RvState) : s.handleAlive = true → RvStep s (dropHandle s)
  | pendingSenderFails (s : RvState) : s.pending = true → s.receiverAlive = false →
      RvStep s { s with pending := false, ready := true }
  | dropReceiver (s : RvState) : s.receiverAlive = true → s.handleAlive = false →
      RvStep s { s with receiverAlive := false }

/-- States of the rendezvous channel reachable from the fresh channel. -/
inductive RvReachable : RvState → Prop
  | init : RvReachable rvInit
  | step {s s' : RvState} : RvReachable s → RvStep s s' → RvReachable s'

/-- Invariant tying the ready flag to the handle and the pending sender. -/
def RvInv (s : RvState) : Prop :=
  (s.handleAlive = true → s.ready = false) ∧
  (s.pending = true → s.ready = false) ∧
  ¬(s.pending = true ∧ s.handleAlive = true)

lemma rvStep_inv {s s' : RvState} (hs : RvInv s) (h : RvStep s s') : RvInv s' := by
  obtain ⟨i1, i2, i3⟩ := hs
  cases h with
  | sendBusy h1 => exact ⟨i1, i2, i3⟩
  | sendOk h1 h2 =>
    have hh : s.handleAlive = false := by
      cases hha : s.handleAlive with
      | false => rfl
      | true => exact absurd (i1 hha) (by simp [h1])
    exact ⟨fun _ => rfl, fun _ => rfl, fun hc => absurd hc.2 (by simp [hh])⟩
  | sendDisconnected h1 h2 => exact ⟨i1, i2, i3⟩
  | recvHandle h1 h2 h3 =>
    exact ⟨fun _ => i2 h1, fun hp => absurd hp (by simp),
      fun hc => absurd hc.1 (by simp)⟩
  | dropsHandle h1 =>
    have hp : s.pending = false := by
      cases hpp : s.pending with
      | false => rfl
      | true => exact absurd ⟨hpp, h1⟩ i3
    exact ⟨fun hx => absurd hx (by simp [dropHandle]),
      fun hx => absurd hx (by simp [dropHandle, hp]),
      fun hc => absurd hc.1 (by simp [dropHandle, hp])⟩
  | pendingSenderFails h1 h2 =>
    have hh : s.handleAlive = false := by
      cases hha : s.handleAlive with
      | false => rfl
      | true => exact absurd ⟨h1, hha⟩ i3
    exact ⟨fun hx => absurd hx (by simp [hh]), fun hx => absurd hx (by simp),
      fun hc => absurd hc.1 (by simp)⟩
  | dropReceiver h1 h2 =>
    exact ⟨i1, i2, i3⟩

lemma rvReachable_inv {s : RvState} (h : RvReachable s) : RvInv s := by
  induction h with
  | init => exact ⟨by simp [rvInit], by simp [rvInit], by simp [rvInit]⟩
  | step _ hstep ih => exact rvStep_inv ih hstep

/-- CLAIM C4. RendezvousSender::send returns Busy without attempting the
handoff exactly when the ready flag was already false (in which case the state
is untouched); and when the flip succeeds (flag was true) but the receiver has
been dropped, send attempts the handoff, resets ready to true and returns
Disconnected. -/
theorem c4_rendezvous_send (s : RvState) :
    ((rendezvous_send s).result = .busy ∧ (rendezvous_send s).attempted = false ∧
        (rendezvous_send s).state = s ↔ s.ready = false) ∧
    (s.ready = true → s.receiverAlive = false →
      (rendezvous_send s).result = .disconnected ∧
      (rendezvous_send s).attempted = true ∧
      (rendezvous_send s).state.ready = true) := by
  constructor
  · constructor
    · intro ⟨h1, _, _⟩
      by_contra hr
      simp at hr
      simp [rendezvous_send, hr] at h1
      rcases hra : s.receiverAlive with _ | _ <;> simp [hra] at h1
    · intro hr
      simp [rendezvous_send, hr]
  · intro h1 h2
    simp [rendezvous_send, h1, h2]

/-- Witness for c4_rendezvous_send at the state of a channel whose receiver
was dropped while the flag is set. -/
theorem c4_rendezvous_send_witness :
    (let s : RvState := ⟨true, false, false, false⟩
    ((rendezvous_send s).result = .busy ∧ (rendezvous_send s).attempted = false ∧
        (rendezvous_send s).state = s ↔ s.ready = false) ∧
    (s.ready = true → s.receiverAlive = false →
      (rendezvous_send s).result = .disconnected ∧
      (rendezvous_send s).attempted = true ∧
      (rendezvous_send s).state.ready = true)) :=
  c4_rendezvous_send ⟨true, false, false, false⟩

/-- CLAIM C5. In every reachable state of a rendezvous channel in which a
RendezvousHandle returned by recv or recv_deadline is alive, the ready flag is
false, so send returns Busy; and dropping the handle stores true into the
flag, after which a send from a new sender does not return Busy. -/
theorem c5_handle_guards_ready {s : RvState} (hr : RvReachable s)
    (hh : s.handleAlive = true) :
    s.ready = false ∧ (rendezvous_send s).result = .busy ∧
    (dropHandle s).ready = true ∧ (rendezvous_send (dropHandle s)).result ≠ .busy := by
  obtain ⟨i1, _, _⟩ := rvReachable_inv hr
  have hready := i1 hh
  refine ⟨hready, by simp [rendezvous_send, hready], by simp [dropHandle], ?_⟩
  rcases hra : s.receiverAlive with _ | _ <;>
    simp [rendezvous_send, dropHandle, hra]

/-- Witness for c5_handle_guards_ready: the state reached by a fresh channel
after one successful send followed by the matching recv has a live handle,
keeps ready false, and re-opens on handle drop. -/
theorem c5_handle_guards_ready_witness :
    (⟨false, false, true, true⟩ : RvState).ready = false ∧
    (rendezvous_send ⟨false, false, true, true⟩).result = .busy ∧
    (dropHandle ⟨false, false, true, true⟩).ready = true ∧
    (rendezvous_send (dropHandle ⟨false, false, true, true⟩)).result ≠ .busy := by
  have h1 : RvReachable ⟨false, true, false, true⟩ :=
    RvReachable.step RvReachable.init (RvStep.sendOk rvInit rfl rfl)
  have h2 : RvReachable ⟨false, false, true, true⟩ :=
    RvReachable.step h1 (RvStep.recvHandle ⟨false, true, false, true⟩ rfl rfl rfl)
  exact c5_handle_guards_ready h2 rfl

/-! ## Live broadcast channel (src/fanout.rs) -/

/-- Embeds crossbeam TrySendError as observed by LivePublisher::publish. -/
inductive TrySendOutcome
  | ok
  | full
  | disconnected
deriving Repr, DecidableEq

/-- One subscriber queue of the live channel of src/fanout.rs: the bounded
crossbeam channel created by subscribe, with its receive end possibly
dropped. -/
structure LiveTx (T : Type) where
  connected : Bool
  queue : List T
deriving Repr, DecidableEq

/-- Embeds tx.try_send(data.clone()) on one subscriber queue of capacity cap:
Disconnected when the receive end is gone, Full when the queue has no room,
otherwise the value is enqueued. -/
def trySend {T : Type} (cap : Nat) (v : T) (tx : LiveTx T) :
    TrySendOutcome × LiveTx T :=
  if tx.connected = false then (.disconnected, tx)
  else if cap ≤ tx.queue.length then (.full, tx)
  else (.ok, { tx with queue := tx.queue ++ [v] })

/-- Embeds the for loop of LivePublisher::publish in src/fanout.rs: try_send
the cloned value to each subscriber in index order, and record the index of
every subscriber whose receive end is disconnected, in ascending order. -/
def publishPass {T : Type} (cap : Nat) (v : T) (idx : Nat) :
    List (LiveTx T) → List (LiveTx T) × List Nat
  | [] => ([], [])
  | tx :: rest =>
    let (res, tx2) := trySend cap v tx
    let (rest2, dead) := publishPass cap v (idx + 1) rest
    match res with
    | .disconnected => (tx2 :: rest2, idx :: dead)
    | _ => (tx2 :: rest2, dead)

/-- Embeds Vec::swap_remove: replace the element at index i with the last
element and pop the last. Out of bounds panics, modelled as none. -/
def swapRemove {T : Type} (xs : List T) (i : Nat) : Option (List T) :=
  if i < xs.length then
    match xs.getLast? with
    | some last => some ((xs.set i last).dropLast)
    | none => none
  else
    none

/-- Embeds LivePublisher::publish of src/fanout.rs: the try_send pass
followed by the removal loop `for dead_tx_index in dead_txs {
txs.swap_remove(dead_tx_index) }` in ascending index order. A swap_remove on
an index that is out of bounds after earlier removals panics, modelled as
none. -/
def publish {T : Type} (cap : Nat) (v : T) (txs : List (LiveTx T)) :
    Option (List (LiveTx T)) :=
  let (txs2, dead) := publishPass cap v 0 txs
  dead.foldlM swapRemove txs2

/-- CLAIM C3, evaluated at the failing input: publishing once to a channel
with exactly two subscribers whose receive ends have both been dropped
panics, because the removal loop calls swap_remove(1) on a vector that the
swap_remove(0) call has already shrunk to length 1. The claim that publish
removes every dead subscriber and always completes normally therefore fails.
The same call with a single dead subscriber completes and removes it. -/
theorem c3_publish_panics :
    publish 1 (0 : Int) [⟨false, []⟩, ⟨false, []⟩] = none ∧
    publish 1 (0 : Int) [⟨false, []⟩, ⟨true, []⟩] = some [⟨true, [0]⟩] := by
  constructor <;> rfl

/-! ## Stream worker (src/stream.rs) -/

/-- Result of one stream.input.recv() call of src/stream.rs. -/
inductive StreamRecv (T : Type)
  | ok (v : T)
  | closed
deriving Repr, DecidableEq

/-- Embeds the loop of stream_thread_main in src/stream.rs over a finite
trace of receive results: on Ok(pcm) the frame is encoded and the result is
sent on the output broadcast unconditionally; on RecvError the worker
panics, modelled as none. Returns the list of published chunks in order. -/
def stream_thread_loop (encode : PcmData → List Int) :
    List (StreamRecv PcmData) → Option (List (List Int))
  | [] => some []
  | .closed :: _ => none
  | .ok pcm :: rest => (stream_thread_loop encode rest).map (encode pcm :: ·)

/-- CLAIM C9 (amended). For every PCM frame received from the source
broadcast, the stream worker encodes the frame and publishes the encoder
result unconditionally, in order — including a result that is empty because
the codec is still buffering internally; no emptiness check is performed. -/
theorem c9_stream_publishes_all (encode : PcmData → List Int)
    (frames : List PcmData) :
    stream_thread_loop encode (frames.map .ok) = some (frames.map encode) := by
  induction frames with
  | nil => rfl
  | cons f rest ih => simp [stream_thread_loop, ih]

/-- CLAIM C9 counterexample. With an encoder that returns an empty buffer for
a frame (codec still buffering), the worker publishes the empty chunk anyway:
the published sequence is [[]], not [] as the claim requires. -/
theorem c9_counterexample :
    stream_thread_loop (fun _ => []) [.ok ⟨44100, 2, [0, 0]⟩] = some [[]] ∧
    ¬ (([] : List Int) ∉ [([] : List Int)]) := by
  exact ⟨rfl, by simp⟩

/-! ## Control endpoint (src/server/control.rs) -/

/-- Strings are modelled as lists of characters so that the claims can be
evaluated on concrete requests. -/
abbrev Str := List Char

/-- The request methods distinguished by the control dispatch of
src/server/control.rs: the non-standard SOURCE method of legacy icecast, PUT,
and every other method. -/
inductive HttpMethod
  | SOURCE
  | put
  | other
deriving Repr, DecidableEq

/-- Embeds enum MediaType of src/server/control.rs. -/
inductive MediaType
  | mp3
  | ogg
deriving Repr, DecidableEq

/-- Embeds val.split of the Content-Type value at the semicolon, index 0: the
part of the header value before the first semicolon, the whole value when
there is none. -/
def content_type_essence (val : Str) : Str :=
  val.takeWhile (fun c => c != ';')

/-- Embeds the content-type match of src/server/control.rs dispatch:
audio/mpeg and audio/mp3 select the MP3 decoder, audio/ogg and
application/ogg the Ogg decoder, everything else (a missing header included)
is unsupported. -/
def media_type_of (content_type : Option Str) : Option MediaType :=
  match content_type with
  | none => none
  | some val =>
    let s := content_type_essence val
    if s = "audio/mpeg".data ∨ s = "audio/mp3".data then some .mp3
    else if s = "audio/ogg".data ∨ s = "application/ogg".data then some .ogg
    else none

/-- Embeds enum ConnectSourceError of src/source.rs. -/
inductive ConnectSourceError
  | alreadyConnected
  | noSuchSource
deriving Repr, DecidableEq

/-- Embeds SourceSet::connect_source of src/source.rs: look the name up in
the source map, then perform a rendezvous send of the new-source command on
the source command channel; Busy maps to AlreadyConnected, and Disconnected
panics, modelled as none. Sources are modelled by the rendezvous channel
state of their command channel. -/
def connect_source (sources : List (Str × RvState)) (name : Str) :
    Option (Except ConnectSourceError Unit) :=
  match sources.lookup name with
  | none => some (.error .noSuchSource)
  | some st =>
    match (rendezvous_send st).result with
    | .busy => some (.error .alreadyConnected)
    | .disconnected => none
    | .ok => some (.ok ())

/-- Request data inspected by the control dispatch. -/
structure ControlRequest where
  method : HttpMethod
  url : Str
  content_type : Option Str

/-- Outcome of the control dispatch observable at the HTTP layer. admitted
means the slot was reserved and the connection proceeds to decoder
construction. -/
inductive ControlOutcome
  | notFound
  | methodNotAllowed
  | unsupportedMediaType
  | conflict
  | admitted (mt : MediaType)
  | panic
deriving Repr, DecidableEq

/-- Embeds dispatch of src/server/control.rs up to the admission decision,
following the source order: the /source/ path test, the method filter, the
percent-decode of the source name as UTF-8 (modelled by the urlDecode
parameter), the content-type check, then connect_source. The second component
records whether connect_source was called, i.e. whether an admission attempt
reserved or probed the source slot. -/
def control_dispatch (sources : List (Str × RvState))
    (urlDecode : Str → Option Str) (req : ControlRequest) :
    ControlOutcome × Bool :=
  if "/source/".data.isPrefixOf req.url then
    match req.method with
    | .SOURCE | .put =>
      match urlDecode (req.url.drop 8) with
      | none => (.notFound, false)
      | some name =>
        match media_type_of req.content_type with
        | none => (.unsupportedMediaType, false)
        | some mt =>
          match connect_source sources name with
          | none => (.panic, true)
          | some (.error .noSuchSource) => (.notFound, true)
          | some (.error .alreadyConnected) => (.conflict, true)
          | some (.ok ()) => (.admitted mt, true)
    | .other => (.methodNotAllowed, false)
  else (.notFound, false)

/-- CLAIM C7. On a /source/ path: a method other than SOURCE or PUT yields
405 with no admission attempt; with a decodable name, an unsupported
Content-Type (the part before any semicolon not among audio/mpeg, audio/mp3,
audio/ogg, application/ogg) yields 415 before any admission attempt touches
the source slot; an unknown source name yields 404; a source whose rendezvous
ready flag is down (a broadcaster is live) yields 409; and the supported set
is exactly the four listed values. -/
theorem c7_control_dispatch (sources : List (Str × RvState))
    (urlDecode : Str → Option Str) (req : ControlRequest)
    (h0 : "/source/".data.isPrefixOf req.url = true) :
    (req.method = .other →
      control_dispatch sources urlDecode req = (.methodNotAllowed, false)) ∧
    ((req.method = .SOURCE ∨ req.method = .put) →
      ∀ name, urlDecode (req.url.drop 8) = some name →
      (media_type_of req.content_type = none →
        control_dispatch sources urlDecode req = (.unsupportedMediaType, false)) ∧
      (∀ mt, media_type_of req.content_type = some mt →
        (sources.lookup name = none →
          control_dispatch sources urlDecode req = (.notFound, true)) ∧
        (∀ st, sources.lookup name = some st → st.ready = false →
          control_dispatch sources urlDecode req = (.conflict, true)))) ∧
    (∀ ct : Str, media_type_of (some ct) = none ↔
      content_type_essence ct ∉ ["audio/mpeg".data, "audio/mp3".data,
        "audio/ogg".data, "application/ogg".data]) := by
  refine ⟨?_, ?_, ?_⟩
  · intro hm
    simp [control_dispatch, h0, hm]
  · intro hm name hname
    refine ⟨?_, ?_⟩
    · intro hmt
      rcases hm with hm | hm <;> simp [control_dispatch, h0, hm, hname, hmt]
    · intro mt hmt
      refine ⟨?_, ?_⟩
      · intro hl
        rcases hm with hm | hm <;>
          simp [control_dispatch, h0, hm, hname, hmt, connect_source, hl]
      · intro st hl hready
        rcases hm with hm | hm <;>
          simp [control_dispatch, h0, hm, hname, hmt, connect_source, hl,
            rendezvous_send, hready]
  · intro ct
    simp only [media_type_of, List.mem_cons, List.mem_singleton]
    split_ifs with h1 h2
    · simp
      tauto
    · simp
      tauto
    · simp
      tauto

/-- Witness for c7_control_dispatch on a concrete request set: a PUT for
/source/radio with Content-Type text/plain against a source map where radio
has a live broadcaster (rendezvous flag down). -/
theorem c7_control_dispatch_witness :
    (let sources : List (Str × RvState) :=
      [("radio".data, ⟨false, true, false, true⟩)]
    let urlDecode : Str → Option Str := fun s => some s
    let req : ControlRequest := ⟨.put, "/source/radio".data, some "text/plain".data⟩
    (req.method = .other →
      control_dispatch sources urlDecode req = (.methodNotAllowed, false)) ∧
    ((req.method = .SOURCE ∨ req.method = .put) →
      ∀ name, urlDecode (req.url.drop 8) = some name →
      (media_type_of req.content_type = none →
        control_dispatch sources urlDecode req = (.unsupportedMediaType, false)) ∧
      (∀ mt, media_type_of req.content_type = some mt →
        (sources.lookup name = none →
          control_dispatch sources urlDecode req = (.notFound, true)) ∧
        (∀ st, sources.lookup name = some st → st.ready = false →
          control_dispatch sources urlDecode req = (.conflict, true)))) ∧
    (∀ ct : Str, media_type_of (some ct) = none ↔
      content_type_essence ct ∉ ["audio/mpeg".data, "audio/mp3".data,
        "audio/ogg".data, "application/ogg".data])) :=
  c7_control_dispatch
    [("radio".data, ⟨false, true, false, true⟩)] (fun s => some s)
    ⟨.put, "/source/radio".data, some "text/plain".data⟩ (by decide)

/-! ## Public endpoint (src/server/public.rs) -/

/-- Embeds enum CodecConfig of src/config.rs. -/
inductive CodecConfig
  | mp3 (bitrate quality : Nat)
deriving Repr, DecidableEq

/-- Embeds struct StreamConfig of src/config.rs. -/
structure StreamConfig where
  path : Str
  source : Str
  codec : CodecConfig
deriving Repr, DecidableEq

/-- Embeds mime_type_from_config of src/audio/encode.rs. -/
def mime_type_from_config : CodecConfig → Str
  | .mp3 _ _ => "audio/mpeg".data

/-- Embeds the public_routes construction of Edicast::new in src/server.rs:
the map from each configured stream path to the stream name. -/
def public_routes (stream : List (Str × StreamConfig)) : List (Str × Str) :=
  stream.map (fun nc => (nc.2.path, nc.1))

/-- Embeds StreamSet::subscribe_stream of src/stream.rs as observed by the
public dispatch: a subscription succeeds exactly when the name is one of the
configured streams (the StreamSet map holds one broadcast sender per
configured stream, and subscribing to a tokio broadcast sender always
succeeds). -/
def subscribe_stream (stream : List (Str × StreamConfig)) (name : Str) : Bool :=
  (stream.lookup name).isSome

/-- Response of the public dispatch of src/server/public.rs. -/
inductive PublicResponse
  | notFound
  | ok (content_type : Str) (cache_control : Str)
deriving Repr, DecidableEq

/-- Embeds dispatch of src/server/public.rs: look the request path up in
public_routes (miss yields 404), resolve the content type from the stream
codec config (the indexing into config.stream panics if absent, modelled as
none), subscribe to the encoded broadcast (failure yields 404), and answer
200 with content-type and cache-control: no-store headers. -/
def public_dispatch (stream : List (Str × StreamConfig)) (path : Str) :
    Option PublicResponse :=
  match (public_routes stream).lookup path with
  | none => some .notFound
  | some stream_id =>
    match stream.lookup stream_id with
    | none => none
    | some cfg =>
      if subscribe_stream stream stream_id then
        some (.ok (mime_type_from_config cfg.codec) "no-store".data)
      else
        some .notFound

/-- What StreamBody::poll_frame of src/server/public.rs observes from one
broadcast receiver recv call. -/
inductive BroadcastRecvResult (T : Type)
  | value (v : T)
  | closed
  | lagged (skipped : Nat)
deriving Repr, DecidableEq

/-- One poll result of the response body. -/
inductive BodyPollResult (T : Type)
  | frame (v : T)
  | endOfStream
  | terminated
deriving Repr, DecidableEq

/-- Embeds StreamBody::poll_frame of src/server/public.rs: a received chunk
becomes a data frame, Closed ends the body normally, Lagged raises
ClientLagged which terminates the stream mid-response. -/
def poll_frame {T : Type} : BroadcastRecvResult T → BodyPollResult T
  | .value v => .frame v
  | .closed => .endOfStream
  | .lagged _ => .terminated

/-- How the response body ended. -/
inductive BodyEnd
  | stillOpen
  | closedNormally
  | terminatedMidResponse
deriving Repr, DecidableEq

/-- Runs the response body over a finite trace of receiver results: every
received chunk is streamed in order until the first Closed (normal end of
body) or Lagged (stream terminated mid-response). -/
def stream_body_run {T : Type} : List (BroadcastRecvResult T) → List T × BodyEnd
  | [] => ([], .stillOpen)
  | r :: rest =>
    match poll_frame r with
    | .frame v =>
      let (vs, e) := stream_body_run rest
      (v :: vs, e)
    | .endOfStream => ([], .closedNormally)
    | .terminated => ([], .terminatedMidResponse)

lemma lookup_public_routes_mem : ∀ (stream : List (Str × StreamConfig))
    (path sid : Str), (public_routes stream).lookup path = some sid →
    (stream.lookup sid).isSome := by
  intro stream
  induction stream with
  | nil =>
    intro path sid h
    simp [public_routes] at h
  | cons nc rest ih =>
    intro path sid h
    obtain ⟨n, c⟩ := nc
    simp only [public_routes, List.map_cons] at h
    cases hp : path == c.path with
    | true =>
      simp only [List.lookup_cons, hp, Option.some.injEq] at h
      subst h
      rw [List.lookup_cons, beq_self_eq_true]
      rfl
    | false =>
      simp only [List.lookup_cons, hp] at h
      have hrest := ih path sid (by simpa [public_routes] using h)
      cases hs : sid == n with
      | true =>
        rw [List.lookup_cons, hs]
        rfl
      | false =>
        rw [List.lookup_cons, hs]
        exact hrest

/-- CLAIM C8. For every GET on the public endpoint: a path missing from the
path to stream-name routing table yields 404; a configured path yields a 200
response whose headers are the content type resolved from the stream codec
config and cache-control: no-store; and the body streams each received chunk
in order until the broadcast closes (body ends normally) or the receiver
lags beyond buffer capacity (stream terminated mid-response). -/
theorem c8_public_dispatch (stream : List (Str × StreamConfig)) (path : Str) :
    ((public_routes stream).lookup path = none →
      public_dispatch stream path = some .notFound) ∧
    (∀ sid, (public_routes stream).lookup path = some sid →
      ∃ cfg, stream.lookup sid = some cfg ∧
        public_dispatch stream path =
          some (.ok (mime_type_from_config cfg.codec) "no-store".data)) ∧
    (∀ chunks : List (List Int), ∀ skipped : Nat,
      stream_body_run (chunks.map .value ++ [.closed]) =
        (chunks, .closedNormally) ∧
      stream_body_run (chunks.map .value ++ [.lagged skipped]) =
        (chunks, .terminatedMidResponse)) := by
  refine ⟨?_, ?_, ?_⟩
  · intro h
    simp [public_dispatch, h]
  · intro sid h
    have hs := lookup_public_routes_mem stream path sid h
    rw [Option.isSome_iff_exists] at hs
    obtain ⟨cfg, hcfg⟩ := hs
    refine ⟨cfg, hcfg, ?_⟩
    simp [public_dispatch, h, hcfg, subscribe_stream]
  · intro chunks skipped
    constructor <;>
      (induction chunks with
      | nil => rfl
      | cons c rest ih => simp [stream_body_run, poll_frame, ih])

/-- Witness for c8_public_dispatch on a concrete one-stream configuration:
a miss on /other, a hit on /radio, and a two-chunk body trace. -/
theorem c8_public_dispatch_witness :
    (let stream : List (Str × StreamConfig) :=
      [("st1".data, ⟨"/radio".data, "src".data, .mp3 128 5⟩)]
    public_dispatch stream "/other".data = some .notFound ∧
    public_dispatch stream "/radio".data =
      some (.ok "audio/mpeg".data "no-store".data) ∧
    stream_body_run ([[(1 : Int)], [2]].map .value ++ [.closed]) =
      ([[1], [2]], .closedNormally) ∧
    stream_body_run ([[(1 : Int)], [2]].map .value ++ [.lagged 3]) =
      ([[1], [2]], .terminatedMidResponse)) := by
  have h1 := (c8_public_dispatch
    [("st1".data, ⟨"/radio".data, "src".data, .mp3 128 5⟩)] ("/other".data)).1
    (by decide)
  have h2 := (c8_public_dispatch
    [("st1".data, ⟨"/radio".data, "src".data, .mp3 128 5⟩)] ("/radio".data)).2.1
    "st1".data (by decide)
  have h3 := (c8_public_dispatch
    [("st1".data, ⟨"/radio".data, "src".data, .mp3 128 5⟩)] ("/radio".data)).2.2
    [[(1 : Int)], [2]] 3
  obtain ⟨cfg, hcfg, hdisp⟩ := h2
  have heval : (([("st1".data, (⟨"/radio".data, "src".data,
      CodecConfig.mp3 128 5⟩ : StreamConfig))] : List (Str × StreamConfig)).lookup
        "st1".data) =
      some ⟨"/radio".data, "src".data, CodecConfig.mp3 128 5⟩ := by decide
  rw [heval] at hcfg
  injection hcfg with hh
  subst hh
  exact ⟨h1, hdisp, h3.1, h3.2⟩

/-! ## MP3 encoder deinterleaving (src/audio/encode.rs) -/

/-- Embeds the deinterleaving loop of Mp3::encode in src/audio/encode.rs for
the multi-channel branch: for each chunk of data.samples of size channels,
push chunk index 0 onto left and chunk index 1 onto right; an out-of-bounds
chunk access (the final chunk shorter than 2) panics, modelled as none, as
does a zero channel count (chunks(0) panics in the source). -/
def deinterleavePairs (channels : Nat) : List Int → Option (List (Int × Int))
  | [] => some []
  | x :: xs =>
    if _h : channels = 0 then none
    else
      let chunk := (x :: xs).take channels
      match chunk[0]?, chunk[1]? with
      | some a, some b =>
        (deinterleavePairs channels ((x :: xs).drop channels)).map ((a, b) :: ·)
      | _, _ => none
termination_by l => l.length
decreasing_by
  simp_wf
  omega

/-- Embeds the channel split of Mp3::encode in src/audio/encode.rs: a mono
frame is duplicated onto left and right; otherwise the samples are
deinterleaved chunkwise, keeping only the first two channels. Returns the
(left, right) sample vectors handed to the LAME encoder, or none if a chunk
access panics. -/
def mp3_encode_channels (data : PcmData) : Option (List Int × List Int) :=
  if data.channels = 1 then some (data.samples, data.samples)
  else
    (deinterleavePairs data.channels data.samples).map
      (fun ps => (ps.map Prod.fst, ps.map Prod.snd))

lemma deinterleavePairs_total (channels : Nat) (h2 : 2 ≤ channels) :
    ∀ (n : Nat) (l : List Int), l.length = n → l.length % channels = 0 →
    ∃ ps, deinterleavePairs channels l = some ps ∧
      ps.length = l.length / channels := by
  intro n
  induction n using Nat.strong_induction_on with
  | _ n ih =>
    intro l hlen hm
    match l with
    | [] => exact ⟨[], by simp [deinterleavePairs], by simp⟩
    | [x] =>
      exfalso
      have h1 : (1 : Nat) % channels = 1 := Nat.mod_eq_of_lt (by omega)
      have hmx : 1 % channels = 0 := hm
      omega
    | x :: y :: ys =>
      obtain ⟨k, rfl⟩ : ∃ k, channels = k + 2 := ⟨channels - 2, by omega⟩
      obtain ⟨m, hmm⟩ := Nat.dvd_of_mod_eq_zero hm
      have hm1 : 1 ≤ m := by
        rcases Nat.eq_zero_or_pos m with h0 | h0
        · subst h0
          simp at hmm
        · exact h0
      obtain ⟨m0, rfl⟩ : ∃ m0, m = m0 + 1 := ⟨m - 1, by omega⟩
      have hmm2 : (x :: y :: ys).length = (k + 2) * m0 + (k + 2) := by
        rw [hmm, Nat.mul_succ]
      have hdroplen : ((x :: y :: ys).drop (k + 2)).length = (k + 2) * m0 := by
        simp only [List.length_drop]
        omega
      have hrec := ih ((k + 2) * m0) (by omega) ((x :: y :: ys).drop (k + 2))
        hdroplen (by
          rw [hdroplen]
          exact Nat.mul_mod_right _ _)
      obtain ⟨ps, hps, hpslen⟩ := hrec
      refine ⟨(x, y) :: ps, ?_, ?_⟩
      · rw [deinterleavePairs]
        simp only [List.drop_succ_cons] at hps
        simp [List.take_succ_cons, hps]
      · simp only [List.length_cons]
        rw [hpslen, hdroplen, Nat.mul_div_cancel_left _ (by omega : 0 < k + 2)]
        have hmm3 : ys.length + 1 + 1 = (k + 2) * (m0 + 1) := by simpa using hmm
        rw [hmm3, Nat.mul_div_cancel_left _ (by omega : 0 < k + 2)]

/-- CLAIM C10. For every PcmData with at least two channels whose sample
count is a multiple of the channel count, the deinterleaving loop of
Mp3::encode never hits the out-of-bounds panic: every chunk has indices 0 and
1, the split succeeds and produces one left and one right sample per chunk.
Without the precondition the panic is reachable: a stereo frame with three
samples leaves a final chunk of one sample and the access at index 1 is out
of bounds. -/
theorem c10_mp3_deinterleave_safe (data : PcmData) (h2 : 2 ≤ data.channels)
    (hm : data.samples.length % data.channels = 0) :
    (∃ l r, mp3_encode_channels data = some (l, r) ∧
      l.length = data.samples.length / data.channels ∧
      r.length = data.samples.length / data.channels) ∧
    mp3_encode_channels ⟨44100, 2, [0, 0, 0]⟩ = none := by
  constructor
  · obtain ⟨ps, hps, hlen⟩ := deinterleavePairs_total data.channels h2
      data.samples.length data.samples rfl hm
    refine ⟨ps.map Prod.fst, ps.map Prod.snd, ?_, by simp [hlen], by simp [hlen]⟩
    have hch1 : ¬(data.channels = 1) := by omega
    simp [mp3_encode_channels, hch1, hps]
  · have : deinterleavePairs 2 [0, 0, 0] = none := by
      rw [deinterleavePairs]
      simp [deinterleavePairs]
    simp [mp3_encode_channels, this]

/-- Witness for c10_mp3_deinterleave_safe at a 4-sample stereo frame. -/
theorem c10_mp3_deinterleave_safe_witness :
    2 ≤ (⟨44100, 2, [1, 2, 3, 4]⟩ : PcmData).channels ∧
    (⟨44100, 2, [1, 2, 3, 4]⟩ : PcmData).samples.length %
      (⟨44100, 2, [1, 2, 3, 4]⟩ : PcmData).channels = 0 ∧
    ((∃ l r, mp3_encode_channels ⟨44100, 2, [1, 2, 3, 4]⟩ = some (l, r) ∧
      l.length = 4 / 2 ∧ r.length = 4 / 2) ∧
      mp3_encode_channels ⟨44100, 2, [0, 0, 0]⟩ = none) :=
  ⟨by decide, by decide,
    c10_mp3_deinterleave_safe ⟨44100, 2, [1, 2, 3, 4]⟩ (by decide) (by decide)⟩

end Edicast
